import Mathlib

/-
Verification of the agential repository: a shallow embedding of
src/agential/cog/functional/self_refine.py and
src/agential/utils/agent_tools.py, together with theorems settling the
behavioural claims about the halting policy, the model-caller functions,
and the three agent tools.

Python strings are modelled as Lean String values, with the relevant
Python primitives (str.lower, str.strip, substring containment via in,
str.split on a one-character separator, str.startswith) implemented
structurally over the underlying character lists so that every
definition evaluates by kernel reduction on concrete inputs.

External collaborators (the language model, the HTTP layer, the Python
exec builtin, the Google search wrapper) are passed in as explicit
function parameters, and the functions that invoke them are instrumented
with an explicit trace of the calls they make, derived directly from the
call sites in the source.
-/

/-- Whitespace set of the ASCII fragment of Python str.strip. -/
def isPySpace (c : Char) : Bool :=
  c = ' ' || c = '\t' || c = '\n' || c = '\r' || c = '\x0b' || c = '\x0c'

/-- Python str.strip on the underlying character list: drop whitespace
from the left, then from the right. -/
def stripList (l : List Char) : List Char :=
  ((l.dropWhile isPySpace).reverse.dropWhile isPySpace).reverse

/-- Python str.strip. -/
def pyStrip (s : String) : String := String.mk (stripList s.data)

/-- Python str.lower on the ASCII fragment: lowercase every character. -/
def pyLower (s : String) : String := String.mk (s.data.map Char.toLower)

/-- Python substring containment (the in operator on strings): the needle
is a contiguous substring of the haystack. -/
def containsSub (needle : List Char) (hay : List Char) : Bool :=
  match hay with
  | [] => needle.isEmpty
  | _ :: rest => needle.isPrefixOf hay || containsSub needle rest

/-- Python str.split on a one-character separator (the source only ever
splits on a single character). -/
def splitOnChar (sep : Char) : List Char → List (List Char)
  | [] => [[]]
  | c :: rest =>
    if c = sep then [] :: splitOnChar sep rest
    else
      match splitOnChar sep rest with
      | [] => [[c]]
      | h :: t => (c :: h) :: t

/-- Python str.startswith. -/
def pyStartsWith (s : String) (pre : String) : Bool :=
  pre.data.isPrefixOf s.data

/-- Python falsiness of an optional environment string, as tested by
if not x on the result of os.environ.get: None and the empty string are
falsy. -/
def pyFalsy : Option String → Bool
  | none => true
  | some s => s.data.isEmpty

/- ## self_refine.py: prompt building, model callers, halting policy -/

/-- Scanner for brace placeholders, modelling str.format as used by
PromptTemplate.format: the first argument is the substitution map, the
Option argument is the name being collected inside an open brace (in
reverse), the list is the remaining template text. All placeholders are
replaced simultaneously by their values; a placeholder with no
corresponding value is left in place. -/
def formatAux (subs : List (String × String)) : Option (List Char) → List Char → List Char
  | none, [] => []
  | none, c :: rest =>
    if c = '\x7b' then formatAux subs (some []) rest
    else c :: formatAux subs none rest
  | some nm, [] => '\x7b' :: nm.reverse
  | some nm, c :: rest =>
    if c = '\x7d' then
      (match subs.lookup (String.mk nm.reverse) with
       | some v => v.data
       | none => '\x7b' :: (nm.reverse ++ ['\x7d'])) ++ formatAux subs none rest
    else formatAux subs (some (c :: nm)) rest

/-- Modelled from the spec: PromptTemplate.from_template(t).format(...)
from the langchain library (not part of this repository) substitutes the
named values for the corresponding brace placeholders of the template
(section 4.1: a string with all placeholders replaced by their
corresponding values, verbatim). -/
def formatTemplate (template : String) (subs : List (String × String)) : String :=
  String.mk (formatAux subs none template.data)

/-- Modelled from the spec: the default GSM8K answer-generation template
(the prompt text module agential.cog.prompts.self_refine is not under
src); the spec requires only that it carries the question and examples
placeholders. -/
def SELF_REFINE_INSTRUCTION_GSM8K : String :=
  "\x7bexamples\x7d\n(END OF EXAMPLES)\nQuestion: \x7bquestion\x7d"

/-- Modelled from the spec: the default GSM8K feedback-generation
template (not under src); carries the examples and solution
placeholders. -/
def SELF_REFINE_FEEDBACK_INSTRUCTION_GSM8K : String :=
  "\x7bexamples\x7d\n\n\x7bsolution\x7d\n\nFeedback:"

/-- Modelled from the spec: the default GSM8K refinement-generation
template (not under src); carries the examples, solution and feedback
placeholders. -/
def SELF_REFINE_REFINE_INSTRUCTION_GSM8K : String :=
  "\x7bexamples\x7d\n\n\x7bsolution\x7d\n\n\x7bfeedback\x7d\n\nRefined:"

/-- Embedding of _build_agent_prompt: substitute question and examples
into the template. -/
def _build_agent_prompt (question examples : String) (prompt : String) : String :=
  formatTemplate prompt [("question", question), ("examples", examples)]

/-- Embedding of _prompt_agent. The llm parameter is the language model
collaborator (prompt text to reply text). The first component is the
returned string (the reply of the single llm call, stripped); the second
component is the trace of prompts sent to the model, one entry per llm
call site executed in the source body. -/
def _prompt_agent (llm : String → String) (question examples prompt : String) :
    String × List String :=
  let p := _build_agent_prompt question examples prompt
  let out := llm p
  (pyStrip out, [p])

/-- Embedding of _build_feedback_prompt: substitute examples and solution
into the template. -/
def _build_feedback_prompt (examples solution : String) (prompt : String) : String :=
  formatTemplate prompt [("examples", examples), ("solution", solution)]

/-- Embedding of _prompt_feedback, instrumented like _prompt_agent. -/
def _prompt_feedback (llm : String → String) (examples solution prompt : String) :
    String × List String :=
  let p := _build_feedback_prompt examples solution prompt
  let out := llm p
  (pyStrip out, [p])

/-- Embedding of _build_refine_prompt: substitute examples, solution and
feedback into the template. -/
def _build_refine_prompt (examples solution feedback : String) (prompt : String) : String :=
  formatTemplate prompt [("examples", examples), ("solution", solution), ("feedback", feedback)]

/-- Embedding of _prompt_refine, instrumented like _prompt_agent. -/
def _prompt_refine (llm : String → String) (examples solution feedback prompt : String) :
    String × List String :=
  let p := _build_refine_prompt examples solution feedback prompt
  let out := llm p
  (pyStrip out, [p])

/-- Embedding of _is_halted: the fixed phrase is a substring of the
lowercased feedback. -/
def _is_halted (feedback : String) : Bool :=
  containsSub "it is correct".data (pyLower feedback).data

/-- Modelled from the spec: one answer, feedback, refine pass of the
Refine Loop (section 4.4), whose orchestration code is not under src. It
chains the three model-caller functions, feeding each phase the previous
output, and concatenates their call traces. Returns the refined solution,
the feedback, and the combined trace. -/
def runThreePhases (llm : String → String)
    (question examples tAnswer tFeedback tRefine : String) :
    String × String × List String :=
  let a := _prompt_agent llm question examples tAnswer
  let f := _prompt_feedback llm examples a.1 tFeedback
  let r := _prompt_refine llm examples a.1 f.1 tRefine
  (r.1, f.1, a.2 ++ f.2 ++ r.2)

/- ## agent_tools.py: execute_python, execute_wolfram, search_google -/

/-- Value in the execution namespace produced by exec. -/
inductive PyVal where
  | intVal : Int → PyVal
  | strVal : String → PyVal

/-- Python str() of a namespace value, as used by the f-string
interpolation in execute_python. -/
def pyValStr : PyVal → String
  | PyVal.intVal n => toString n
  | PyVal.strVal s => s

/-- Preprocessing stage of execute_python: split the input on semicolons,
strip each piece, and join the pieces with newlines. -/
def preprocess (input_code : String) : String :=
  String.intercalate "\n"
    ((splitOnChar ';' input_code.data).map (fun l => String.mk (stripList l)))

/-- Rendering stage of execute_python: keep the namespace entries whose
names do not start with a double underscore and join them as
name = value pairs separated by commas. -/
def renderVars (local_vars : List (String × PyVal)) : String :=
  String.intercalate ", "
    ((local_vars.filter (fun kv => !(pyStartsWith kv.1 "__"))).map
      (fun kv => kv.1 ++ " = " ++ pyValStr kv.2))

/-- Embedding of execute_python. The execFn parameter is the exec
collaborator: it receives the preprocessed source and either returns the
resulting local namespace (an insertion-ordered association list, as a
Python dict) or fails with the text of the raised exception, which the
source catches and returns as the result string. -/
def execute_python (execFn : String → Except String (List (String × PyVal)))
    (input_code : String) : String :=
  match execFn (preprocess input_code) with
  | Except.error e => e
  | Except.ok local_vars => renderVars local_vars

/-- Parse a list of decimal digits as a natural number. -/
def charsToNat? (l : List Char) : Option Nat :=
  if l.isEmpty then none
  else if l.all Char.isDigit then
    some (l.foldl (fun acc c => acc * 10 + (c.toNat - 48)) 0)
  else none

/-- Atom of the modelled expression fragment: an integer literal or a
previously assigned integer variable. -/
def evalAtom (env : List (String × PyVal)) (tok : List Char) : Option Int :=
  match charsToNat? tok with
  | some n => some (Int.ofNat n)
  | none =>
    match env.lookup (String.mk tok) with
    | some (PyVal.intVal n) => some n
    | _ => none

/-- Product expression of the modelled fragment: atoms joined by the
multiplication operator. -/
def evalExpr (env : List (String × PyVal)) (e : List Char) : Option Int :=
  match (splitOnChar '*' e).map stripList with
  | [] => none
  | t :: ts =>
    ts.foldl (fun acc tok =>
      match acc, evalAtom env tok with
      | some a, some v => some (a * v)
      | _, _ => none) (evalAtom env t)

/-- Python identifier syntax (ASCII fragment). -/
def isIdentChars (l : List Char) : Bool :=
  match l with
  | [] => false
  | c :: rest => (c.isAlpha || c = '_') && rest.all (fun d => d.isAlphanum || d = '_')

/-- Assignment into the namespace with Python dict semantics: an existing
key is updated in place, a new key is appended. -/
def assignVar (env : List (String × PyVal)) (name : String) (v : PyVal) :
    List (String × PyVal) :=
  if env.any (fun kv => kv.1 == name) then
    env.map (fun kv => if kv.1 == name then (kv.1, v) else kv)
  else env ++ [(name, v)]

/-- One statement of the modelled fragment: blank, or an assignment of a
product expression to an identifier. -/
def execStmt (env : List (String × PyVal)) (line : List Char) :
    Option (List (String × PyVal)) :=
  if (stripList line).isEmpty then some env
  else
    match splitOnChar '=' line with
    | [lhs, rhs] =>
      let name := stripList lhs
      if isIdentChars name then
        match evalExpr env (stripList rhs) with
        | some v => some (assignVar env (String.mk name) (PyVal.intVal v))
        | none => none
      else none
    | _ => none

/-- Run the statements of a program in order, threading the namespace. -/
def runStmts (env : List (String × PyVal)) : List (List Char) → Option (List (String × PyVal))
  | [] => some env
  | line :: rest =>
    match execStmt env line with
    | some env2 => runStmts env2 rest
    | none => none

/-- Modelled from the spec: the Python exec builtin (a runtime primitive,
not code of this repository) restricted to the straight-line
integer-assignment fragment the spec exercises: newline-separated
statements of the form name = e with e a product of integer literals and
previously assigned names, executed in an initially empty isolated
namespace. A program outside the fragment fails with an exception
message. -/
def pyExec (src : String) : Except String (List (String × PyVal)) :=
  match runStmts [] (splitOnChar '\n' src.data) with
  | some env => Except.ok env
  | none => Except.error "invalid syntax (<string>, line 1)"

/-- One pod of a Wolfram Alpha response: a title and the plaintext of
each subpod. -/
structure WolframPod where
  title : String
  subpods : List String

/-- Shape of the Wolfram Alpha HTTP response used by the source: the
status code and, when the JSON body has a queryresult field, its list of
pods. -/
structure WolframResponse where
  status_code : Nat
  queryresult : Option (List WolframPod)

/-- The fixed missing-key message of execute_wolfram. -/
def wolframMissingMsg : String :=
  "Wolfram Alpha API key not found in environment variables. Use a different tool."

/-- Assembly of the output text of execute_wolfram from the pods: every
pod other than Input interpretation contributes its title, a colon and
newline, and each subpod plaintext followed by a newline; the result is
stripped. -/
def wolframPodsOutput (pods : List WolframPod) : String :=
  pyStrip (pods.foldl (fun acc pod =>
    if pod.title ≠ "Input interpretation" then
      acc ++ pod.title ++ ":\n" ++ String.join (pod.subpods.map (fun s => s ++ "\n"))
    else acc) "")

/-- Embedding of execute_wolfram. The env parameter is os.environ.get;
the http parameter is the requests.get collaborator, which either
returns a response or fails with the text of a raised exception (the
source does not catch it). The second component of the result counts the
HTTP calls performed, one per requests.get call site executed. -/
def execute_wolfram (env : String → Option String)
    (http : String → Except String WolframResponse) (query : String) :
    Except String String × Nat :=
  let app_id := env "WOLFRAM_ALPHA_APP_ID"
  if pyFalsy app_id then
    (Except.ok wolframMissingMsg, 0)
  else
    match http query with
    | Except.error e => (Except.error e, 1)
    | Except.ok response =>
      if response.status_code = 200 then
        match response.queryresult with
        | some pods => (Except.ok (wolframPodsOutput pods), 1)
        | none => (Except.ok "No results found using Wolfram Alpha API.", 1)
      else
        (Except.ok ("Error occurred: " ++ toString response.status_code), 1)

/-- One Google search result, with the snippet field read by the
source. -/
structure GoogleResult where
  snippet : String

/-- The fixed missing-key message of search_google. -/
def googleMissingMsg : String :=
  "Google search key(s) not found in environment variables. Use a different tool."

/-- Embedding of search_google. The env parameter is os.environ.get; the
search parameter is the GoogleSearchAPIWrapper.results collaborator
(query and num_results to a result list), which may fail with the text
of a raised exception, uncaught by the source. The source indexes the
result list with [-1], which raises IndexError on an empty list. -/
def search_google (env : String → Option String)
    (search : String → Nat → Except String (List GoogleResult)) (query : String) :
    Except String String :=
  let cse_id := env "GOOGLE_CSE_ID"
  let google_key := env "GOOGLE_API_KEY"
  if pyFalsy cse_id || pyFalsy google_key then
    Except.ok googleMissingMsg
  else
    match search query 1 with
    | Except.error e => Except.error e
    | Except.ok results =>
      match results.getLast? with
      | none => Except.error "IndexError: list index out of range"
      | some search_result => Except.ok search_result.snippet

/- ## Concrete collaborators used by witnesses and counterexamples -/

/-- Environment with no variables set. -/
def emptyEnv : String → Option String := fun _ => none

/-- Environment in which only WOLFRAM_ALPHA_APP_ID is set: every other
key, in particular any hypothetical second Wolfram configuration value,
is absent. -/
def soleWolframEnv : String → Option String :=
  fun k => if k = "WOLFRAM_ALPHA_APP_ID" then some "DEMO-KEY" else none

/-- HTTP collaborator returning a successful Wolfram response with one
result pod. -/
def okWolframHttp : String → Except String WolframResponse :=
  fun _ => Except.ok ⟨200, some [⟨"Result", ["42"]⟩]⟩

/-- Environment in which both Google configuration values are set. -/
def fullGoogleEnv : String → Option String :=
  fun k =>
    if k = "GOOGLE_CSE_ID" then some "cse-id"
    else if k = "GOOGLE_API_KEY" then some "api-key"
    else none

/-- Search collaborator whose underlying HTTP request fails with an
exception. -/
def failingSearch : String → Nat → Except String (List GoogleResult) :=
  fun _ _ => Except.error "HTTPError: 429 Too Many Requests"

/-- Search collaborator returning two results with distinct snippets. -/
def okSearch : String → Nat → Except String (List GoogleResult) :=
  fun _ _ => Except.ok [⟨"first snippet"⟩, ⟨"last snippet"⟩]

/-- Exec collaborator returning a namespace holding a dunder entry next
to an ordinary variable. -/
def dunderExecFn : String → Except String (List (String × PyVal)) :=
  fun _ => Except.ok [("__builtins__", PyVal.strVal "module"), ("a", PyVal.intVal 1)]

/-- The namespace returned by dunderExecFn. -/
def dunderVars : List (String × PyVal) :=
  [("__builtins__", PyVal.strVal "module"), ("a", PyVal.intVal 1)]

/-- Exec collaborator that raises. -/
def failExecFn : String → Except String (List (String × PyVal)) :=
  fun _ => Except.error "name x is not defined"

/-- A stripped string has no leading and no trailing whitespace. -/
def noEdgeSpace (s : String) : Prop :=
  (∀ c : Char, s.data.head? = some c → isPySpace c = false)
  ∧ (∀ c : Char, s.data.getLast? = some c → isPySpace c = false)

/- ## Helper lemmas -/

/-- The executable substring test agrees with list infix containment. -/
theorem containsSub_iff (n : List Char) : ∀ h : List Char, containsSub n h = true ↔ n <:+: h := by
  intro h
  induction h with
  | nil => simp [containsSub, List.isEmpty_iff, List.infix_nil]
  | cons c rest ih =>
    simp [containsSub, List.isPrefixOf_iff_prefix, ih, List.infix_cons_iff]

/-- The head of a dropWhile result does not satisfy the predicate. -/
theorem dropWhile_head_false (p : Char → Bool) :
    ∀ (l : List Char) (c : Char), (l.dropWhile p).head? = some c → p c = false := by
  intro l
  induction l with
  | nil => intro c h; simp [List.dropWhile] at h
  | cons a rest ih =>
    intro c h
    by_cases ha : p a = true
    · rw [List.dropWhile_cons_of_pos ha] at h
      exact ih c h
    · rw [List.dropWhile_cons_of_neg ha] at h
      simp at h
      rw [← h]
      simpa using ha

/-- A nonempty prefix starts with the same character as the full list. -/
theorem prefix_head_eq {l₁ l₂ : List Char} (h : l₁ <+: l₂) (c : Char)
    (hc : l₁.head? = some c) : l₂.head? = some c := by
  obtain ⟨t, rfl⟩ := h
  cases l₁ with
  | nil => simp at hc
  | cons a r => simpa using hc

/-- A stripped character list does not end with whitespace. -/
theorem stripList_getLast_false (l : List Char) (c : Char)
    (h : (stripList l).getLast? = some c) : isPySpace c = false := by
  unfold stripList at h
  rw [List.getLast?_reverse] at h
  exact dropWhile_head_false isPySpace _ c h

/-- A stripped character list does not start with whitespace. -/
theorem stripList_head_false (l : List Char) (c : Char)
    (h : (stripList l).head? = some c) : isPySpace c = false := by
  have hsuff : ((l.dropWhile isPySpace).reverse.dropWhile isPySpace) <:+ (l.dropWhile isPySpace).reverse :=
    List.dropWhile_suffix isPySpace
  have hpre : stripList l <+: l.dropWhile isPySpace := by
    unfold stripList
    have := List.reverse_prefix.mpr hsuff
    simpa using this
  have hh : (l.dropWhile isPySpace).head? = some c := prefix_head_eq hpre c h
  exact dropWhile_head_false isPySpace l c hh

/-- Every stripped string has no leading and no trailing whitespace. -/
theorem pyStrip_noEdgeSpace (s : String) : noEdgeSpace (pyStrip s) := by
  constructor
  · intro c hc
    exact stripList_head_false s.data c hc
  · intro c hc
    exact stripList_getLast_false s.data c hc

/-- Lowercasing distributes over string concatenation. -/
theorem pyLower_append (s t : String) :
    (pyLower (s ++ t)).data = (pyLower s).data ++ (pyLower t).data := by
  simp [pyLower, String.data_append]

/- ## Claim theorems -/

/-- C1: the halting policy returns true exactly when the lowercased
feedback contains the substring "it is correct"; in particular it accepts
the casing variants "It Is Correct" and "IT IS CORRECT" and rejects
"the answer is correctish". -/
theorem is_halted_iff_contains_phrase :
    (∀ feedback : String,
      _is_halted feedback = true ↔ "it is correct".data <:+: (pyLower feedback).data)
    ∧ _is_halted "It Is Correct" = true
    ∧ _is_halted "IT IS CORRECT" = true
    ∧ _is_halted "the answer is correctish" = false := by
  refine ⟨fun feedback => containsSub_iff _ _, by decide, by decide, by decide⟩

/-- C8: halting is monotone under concatenation: feedback that halts
still halts after appending or prepending arbitrary text. -/
theorem is_halted_append_mono (f g : String) (h : _is_halted f = true) :
    _is_halted (f ++ g) = true ∧ _is_halted (g ++ f) = true := by
  have hf : "it is correct".data <:+: (pyLower f).data := (containsSub_iff _ _).mp h
  obtain ⟨s, t, hst⟩ := hf
  constructor
  · apply (containsSub_iff _ _).mpr
    rw [pyLower_append]
    exact ⟨s, t ++ (pyLower g).data, by rw [← hst]; simp⟩
  · apply (containsSub_iff _ _).mpr
    rw [pyLower_append]
    exact ⟨(pyLower g).data ++ s, t, by rw [← hst]; simp⟩

/-- C8 witness: instantiated at halting feedback and a concrete suffix. -/
theorem is_halted_append_mono_witness :
    _is_halted "It is correct." = true
    ∧ (_is_halted ("It is correct." ++ " Well done.") = true
       ∧ _is_halted (" Well done." ++ "It is correct.") = true) :=
  ⟨by decide, is_halted_append_mono "It is correct." " Well done." (by decide)⟩

/-- C9: the halting check is raw substring containment with no word
boundary test: it accepts feedback in which the phrase occurs only inside
the larger words edit and audit. -/
theorem is_halted_inside_larger_word :
    _is_halted "edit is correct" = true ∧ _is_halted "The audit is correct." = true :=
  ⟨by decide, by decide⟩

/-- C5: executing the assignment a = 1*100 through the semicolon-split,
strip, exec, render pipeline returns the flattened listing a = 100. -/
theorem execute_python_concrete_assignment :
    execute_python pyExec "a = 1*100" = "a = 100" := by decide

/-- C10: on a successful execution, the listing contains exactly the
namespace entries whose names do not start with a double underscore,
rendered as name = value pairs joined by comma and space. -/
theorem execute_python_filters_dunder
    (execFn : String → Except String (List (String × PyVal)))
    (input_code : String) (vars : List (String × PyVal))
    (h : execFn (preprocess input_code) = Except.ok vars) :
    execute_python execFn input_code
      = String.intercalate ", "
          ((vars.filter (fun kv => !(pyStartsWith kv.1 "__"))).map
            (fun kv => kv.1 ++ " = " ++ pyValStr kv.2))
    ∧ (∀ kv ∈ vars.filter (fun kv => !(pyStartsWith kv.1 "__")),
        pyStartsWith kv.1 "__" = false)
    ∧ (∀ kv ∈ vars, pyStartsWith kv.1 "__" = false →
        kv ∈ vars.filter (fun kv => !(pyStartsWith kv.1 "__"))) := by
  refine ⟨by simp [execute_python, h, renderVars], ?_, ?_⟩
  · intro kv hkv
    have := (List.mem_filter.mp hkv).2
    simpa using this
  · intro kv hkv hns
    exact List.mem_filter.mpr ⟨hkv, by simp [hns]⟩

/-- C10 witness: a namespace holding a dunder entry next to an ordinary
variable renders only the ordinary variable. -/
theorem execute_python_filters_dunder_witness :
    execute_python dunderExecFn "a = 1"
      = String.intercalate ", "
          ((dunderVars.filter (fun kv => !(pyStartsWith kv.1 "__"))).map
            (fun kv => kv.1 ++ " = " ++ pyValStr kv.2))
    ∧ execute_python dunderExecFn "a = 1" = "a = 1" :=
  ⟨(execute_python_filters_dunder dunderExecFn "a = 1" dunderVars rfl).1, by decide⟩

/-- C3 counterexample: in an environment holding only
WOLFRAM_ALPHA_APP_ID (every other key, in particular any second Wolfram
configuration value, is absent), execute_wolfram still performs one HTTP
call and does not return the missing-key message, so the function does
not require two configuration values. -/
theorem execute_wolfram_second_key_not_required :
    soleWolframEnv "WOLFRAM_ALPHA_APP_SECRET" = none
    ∧ (execute_wolfram soleWolframEnv okWolframHttp "2+2").2 = 1
    ∧ (execute_wolfram soleWolframEnv okWolframHttp "2+2").1 = Except.ok "Result:\n42"
    ∧ ("Result:\n42" : String) ≠ wolframMissingMsg :=
  ⟨rfl, rfl, rfl, by decide⟩

/-- C3 (amended): execute_wolfram reads exactly one configuration value,
WOLFRAM_ALPHA_APP_ID; when it is absent (or empty, hence falsy) the
function returns the fixed message, which contains the phrase
"not found in environment variables", and performs no HTTP call; the
result never depends on any other environment key. -/
theorem execute_wolfram_missing_single_key (env : String → Option String)
    (http : String → Except String WolframResponse) (query : String)
    (h : pyFalsy (env "WOLFRAM_ALPHA_APP_ID") = true) :
    execute_wolfram env http query = (Except.ok wolframMissingMsg, 0)
    ∧ "not found in environment variables".data <:+: wolframMissingMsg.data
    ∧ (∀ env2 : String → Option String,
        env2 "WOLFRAM_ALPHA_APP_ID" = env "WOLFRAM_ALPHA_APP_ID" →
        execute_wolfram env2 http query = execute_wolfram env http query) := by
  refine ⟨by simp [execute_wolfram, h], (containsSub_iff _ _).mp (by decide), ?_⟩
  intro env2 he
  simp only [execute_wolfram, he]

/-- C3 witness: instantiated at the empty environment. -/
theorem execute_wolfram_missing_single_key_witness :
    pyFalsy (emptyEnv "WOLFRAM_ALPHA_APP_ID") = true
    ∧ (execute_wolfram emptyEnv okWolframHttp "2+2" = (Except.ok wolframMissingMsg, 0)
       ∧ "not found in environment variables".data <:+: wolframMissingMsg.data
       ∧ (∀ env2 : String → Option String,
            env2 "WOLFRAM_ALPHA_APP_ID" = emptyEnv "WOLFRAM_ALPHA_APP_ID" →
            execute_wolfram env2 okWolframHttp "2+2" = execute_wolfram emptyEnv okWolframHttp "2+2")) :=
  ⟨by decide, execute_wolfram_missing_single_key emptyEnv okWolframHttp "2+2" (by decide)⟩

/-- C4: with both Google configuration values present, search_google
returns the snippet of the last element of the result list obtained for
result count 1; with either value absent or empty it returns the fixed
missing-key message. -/
theorem search_google_last_snippet (env : String → Option String)
    (search : String → Nat → Except String (List GoogleResult)) (query : String)
    (results : List GoogleResult) (r : GoogleResult)
    (hc : pyFalsy (env "GOOGLE_CSE_ID") = false)
    (hk : pyFalsy (env "GOOGLE_API_KEY") = false)
    (hs : search query 1 = Except.ok results)
    (hl : results.getLast? = some r) :
    search_google env search query = Except.ok r.snippet
    ∧ (∀ env2 : String → Option String,
        (pyFalsy (env2 "GOOGLE_CSE_ID") || pyFalsy (env2 "GOOGLE_API_KEY")) = true →
        search_google env2 search query = Except.ok googleMissingMsg) := by
  constructor
  · simp [search_google, hc, hk, hs, hl]
  · intro env2 h2
    simp [search_google, h2]

/-- C4 witness: a two-element result list yields the second snippet, and
the empty environment yields the missing-key message. -/
theorem search_google_last_snippet_witness :
    search_google fullGoogleEnv okSearch "q" = Except.ok "last snippet"
    ∧ search_google emptyEnv okSearch "q" = Except.ok googleMissingMsg := by
  have h := search_google_last_snippet fullGoogleEnv okSearch "q"
    [⟨"first snippet"⟩, ⟨"last snippet"⟩] ⟨"last snippet"⟩
    (by decide) (by decide) rfl rfl
  exact ⟨h.1, h.2 emptyEnv (by decide)⟩

/-- C2 counterexample: with both Google configuration values present, an
exception raised by the underlying search call propagates out of
search_google instead of being converted to a string result. -/
theorem search_google_propagates_exception :
    search_google fullGoogleEnv failingSearch "q"
      = Except.error "HTTPError: 429 Too Many Requests" := rfl

/-- C2 (amended): execute_python converts execution failures to text,
and execute_wolfram and search_google convert configuration-missing
cases and HTTP error statuses to text; however, exceptions raised by the
underlying HTTP request in execute_wolfram and by the underlying search
call in search_google propagate to the caller rather than being
converted. -/
theorem tool_error_handling :
    (∀ (execFn : String → Except String (List (String × PyVal))) (input_code e : String),
      execFn (preprocess input_code) = Except.error e →
      execute_python execFn input_code = e)
    ∧ (∀ (env : String → Option String) (http : String → Except String WolframResponse)
        (query : String),
      pyFalsy (env "WOLFRAM_ALPHA_APP_ID") = true →
      execute_wolfram env http query = (Except.ok wolframMissingMsg, 0))
    ∧ (∀ (env : String → Option String) (http : String → Except String WolframResponse)
        (query : String) (response : WolframResponse),
      pyFalsy (env "WOLFRAM_ALPHA_APP_ID") = false → http query = Except.ok response →
      response.status_code ≠ 200 →
      (execute_wolfram env http query).1
        = Except.ok ("Error occurred: " ++ toString response.status_code))
    ∧ (∀ (env : String → Option String)
        (search : String → Nat → Except String (List GoogleResult)) (query : String),
      (pyFalsy (env "GOOGLE_CSE_ID") || pyFalsy (env "GOOGLE_API_KEY")) = true →
      search_google env search query = Except.ok googleMissingMsg)
    ∧ (∀ (env : String → Option String)
        (search : String → Nat → Except String (List GoogleResult)) (query e : String),
      pyFalsy (env "GOOGLE_CSE_ID") = false → pyFalsy (env "GOOGLE_API_KEY") = false →
      search query 1 = Except.error e →
      search_google env search query = Except.error e)
    ∧ (∀ (env : String → Option String) (http : String → Except String WolframResponse)
        (query e : String),
      pyFalsy (env "WOLFRAM_ALPHA_APP_ID") = false → http query = Except.error e →
      execute_wolfram env http query = (Except.error e, 1)) := by
  refine ⟨?_, ?_, ?_, ?_, ?_, ?_⟩
  · intro execFn input_code e h
    simp [execute_python, h]
  · intro env http query h
    simp [execute_wolfram, h]
  · intro env http query response h hq hs
    simp [execute_wolfram, h, hq, hs]
  · intro env search query h
    simp [search_google, h]
  · intro env search query e hc hk hs
    simp [search_google, hc, hk, hs]
  · intro env http query e h hq
    simp [execute_wolfram, h, hq]

/-- C2 witness: a raised execution error becomes the returned text. -/
theorem tool_error_handling_witness :
    execute_python failExecFn "x +" = "name x is not defined" :=
  tool_error_handling.1 failExecFn "x +" "name x is not defined" rfl

/-- C6: each model caller returns exactly the stripped reply of the
model on the prompt it built, and the returned string never has leading
or trailing whitespace. -/
theorem prompt_callers_return_stripped_reply :
    (∀ (llm : String → String) (question examples prompt : String),
      (_prompt_agent llm question examples prompt).1
          = pyStrip (llm (_build_agent_prompt question examples prompt))
        ∧ noEdgeSpace (_prompt_agent llm question examples prompt).1)
    ∧ (∀ (llm : String → String) (examples solution prompt : String),
      (_prompt_feedback llm examples solution prompt).1
          = pyStrip (llm (_build_feedback_prompt examples solution prompt))
        ∧ noEdgeSpace (_prompt_feedback llm examples solution prompt).1)
    ∧ (∀ (llm : String → String) (examples solution feedback prompt : String),
      (_prompt_refine llm examples solution feedback prompt).1
          = pyStrip (llm (_build_refine_prompt examples solution feedback prompt))
        ∧ noEdgeSpace (_prompt_refine llm examples solution feedback prompt).1) := by
  refine ⟨?_, ?_, ?_⟩
  · intro llm question examples prompt
    exact ⟨rfl, pyStrip_noEdgeSpace _⟩
  · intro llm examples solution prompt
    exact ⟨rfl, pyStrip_noEdgeSpace _⟩
  · intro llm examples solution feedback prompt
    exact ⟨rfl, pyStrip_noEdgeSpace _⟩

/-- C7: each model caller performs exactly one model call per invocation
(its call trace has length one), and one answer, feedback, refine pass
performs exactly three. -/
theorem prompt_callers_single_model_call :
    (∀ (llm : String → String) (question examples prompt : String),
      ((_prompt_agent llm question examples prompt).2).length = 1)
    ∧ (∀ (llm : String → String) (examples solution prompt : String),
      ((_prompt_feedback llm examples solution prompt).2).length = 1)
    ∧ (∀ (llm : String → String) (examples solution feedback prompt : String),
      ((_prompt_refine llm examples solution feedback prompt).2).length = 1)
    ∧ (∀ (llm : String → String) (question examples tAnswer tFeedback tRefine : String),
      ((runThreePhases llm question examples tAnswer tFeedback tRefine).2.2).length = 3) :=
  ⟨fun _ _ _ _ => rfl, fun _ _ _ _ => rfl, fun _ _ _ _ _ => rfl, fun _ _ _ _ _ _ => rfl⟩

/-- C1 witness: the iff instantiated at concrete accepted feedback. -/
theorem is_halted_iff_contains_phrase_witness :
    _is_halted "Yes, it is correct!" = true :=
  (is_halted_iff_contains_phrase.1 "Yes, it is correct!").mpr (by decide)

/-- C6 witness: a reply with surrounding whitespace comes back
stripped. -/
theorem prompt_callers_return_stripped_reply_witness :
    (_prompt_agent (fun _ => "  reply  ") "q" "ex" "t").1
      = pyStrip ((fun _ : String => "  reply  ") (_build_agent_prompt "q" "ex" "t"))
    ∧ (_prompt_agent (fun _ => "  reply  ") "q" "ex" "t").1 = "reply" :=
  ⟨(prompt_callers_return_stripped_reply.1 (fun _ => "  reply  ") "q" "ex" "t").1, by decide⟩

/-- C7 witness: a concrete three-phase run performs three model calls. -/
theorem prompt_callers_single_model_call_witness :
    ((runThreePhases (fun p => p) "q" "ex" "t1" "t2" "t3").2.2).length = 3 :=
  prompt_callers_single_model_call.2.2.2 (fun p => p) "q" "ex" "t1" "t2" "t3"
